import Mathlib

/-!
Verification of the weather-bot repository: a shallow embedding of the
location-selection, formatting and command-handling logic, followed by
theorems settling the specification's claims.

Numeric JSON values are modelled as `Int` (temperatures, humidity, rain
probability, preference ranks) and `Rat` (wind speeds, timestamps);
nullable / possibly-absent JSON fields are modelled as `Option`; Python
exceptions are modelled with `Except`.
-/

unseal Rat.mul Rat.add Rat.sub Rat.inv

namespace WeatherBot

/-- A location record returned by the search API: `{id, name, countryName,
preference}`, every field possibly absent (absent and JSON-null are both
`none`, matching `dict.get` which returns `None` in either case). -/
structure LocationData where
  id : Option Int
  name : Option String
  countryName : Option String
  preference : Option Int
deriving DecidableEq, Repr

/-- Embeds `location["preference"]` as used by the `min` key function
(only ever applied to records whose `preference` passed the filter, where
it is present). -/
def getPreference (location : LocationData) : Int :=
  (location.preference).getD 0

/-- Embeds the filter predicate of `get_best_location`:
`loc.get("preference") is not None and loc.get("preference") > 0`. -/
def hasPosPref (loc : LocationData) : Bool :=
  match loc.preference with
  | some p => decide (0 < p)
  | none => false

/-- Embeds `min(valid_locations, key=get_preference)` with
`valid_locations = v :: vs`: Python's `min` keeps the first element whose
key is minimal, replacing the running best only on a strictly smaller key. -/
def pickMin (v : LocationData) (vs : List LocationData) : LocationData :=
  vs.foldl (fun best cand => if getPreference cand < getPreference best then cand else best) v

/-- Embeds `WeatherBot.get_best_location` (telegram_weather_bot.py lines
147-176): empty list gives `None`; a single result is returned regardless
of preference; otherwise candidates whose preference is null or not > 0 are
filtered out, with fallback to the first raw candidate when the filter
removes everything, else the minimum-preference candidate is selected. -/
def get_best_location (locations : List LocationData) : Option LocationData :=
  match locations with
  | [] => none
  | [only] => some only
  | l :: ls =>
    match (l :: ls).filter hasPosPref with
    | [] => some l
    | v :: vs => some (pickMin v vs)

/-- The running minimum computed by `pickMin` is a member of the list, has a
minimal key, and is the first element of the list attaining that key. -/
lemma pickMin_spec (vs : List LocationData) (v : LocationData) :
    pickMin v vs ∈ v :: vs
    ∧ (∀ l ∈ v :: vs, getPreference (pickMin v vs) ≤ getPreference l)
    ∧ List.find? (fun l => getPreference l == getPreference (pickMin v vs)) (v :: vs)
        = some (pickMin v vs) := by
  induction vs generalizing v with
  | nil =>
    refine ⟨List.mem_singleton.mpr rfl, ?_, ?_⟩
    · intro l hl
      rw [List.mem_singleton] at hl
      subst hl
      exact le_refl _
    · simp [pickMin, List.find?]
  | cons a t ih =>
    have hstep : pickMin v (a :: t) = pickMin (if getPreference a < getPreference v then a else v) t := by
      simp [pickMin, List.foldl]
    by_cases hcmp : getPreference a < getPreference v
    · rw [if_pos hcmp] at hstep
      obtain ⟨hmem, hmin, hfind⟩ := ih a
      rw [hstep]
      have hma : getPreference (pickMin a t) ≤ getPreference a := hmin a (List.mem_cons_self a t)
      refine ⟨?_, ?_, ?_⟩
      · exact List.mem_cons_of_mem v hmem
      · intro l hl
        rcases List.mem_cons.mp hl with h | h
        · subst h
          exact le_of_lt (lt_of_le_of_lt hma hcmp)
        · exact hmin l h
      · have hvne : (getPreference v == getPreference (pickMin a t)) = false := by
          have : getPreference (pickMin a t) < getPreference v := lt_of_le_of_lt hma hcmp
          simp only [beq_eq_false_iff_ne, ne_eq]
          omega
        rw [List.find?_cons_of_neg _ (by simp [hvne])]
        exact hfind
    · rw [if_neg hcmp] at hstep
      have hvle : getPreference v ≤ getPreference a := le_of_not_lt hcmp
      obtain ⟨hmem, hmin, hfind⟩ := ih v
      rw [hstep]
      have hmv : getPreference (pickMin v t) ≤ getPreference v := hmin v (List.mem_cons_self v t)
      refine ⟨?_, ?_, ?_⟩
      · rcases List.mem_cons.mp hmem with h | h
        · rw [h]; exact List.mem_cons_self v (a :: t)
        · exact List.mem_cons_of_mem v (List.mem_cons_of_mem a h)
      · intro l hl
        rcases List.mem_cons.mp hl with h | h
        · subst h; exact hmv
        · rcases List.mem_cons.mp h with h' | h'
          · subst h'; exact le_trans hmv hvle
          · exact hmin l (List.mem_cons_of_mem v h')
      · by_cases hveq : getPreference v = getPreference (pickMin v t)
        · have hfv : List.find? (fun l => getPreference l == getPreference (pickMin v t)) (v :: t)
              = some v := List.find?_cons_of_pos _ (by simp [hveq])
          have : v = pickMin v t := by
            have := hfind.symm.trans hfv
            exact (Option.some_inj.mp this).symm
          rw [List.find?_cons_of_pos _ (by simp [hveq])]
          rw [← this]
        · have hmlt : getPreference (pickMin v t) < getPreference v := lt_of_le_of_ne hmv (fun h => hveq h.symm)
          have hane : getPreference a ≠ getPreference (pickMin v t) := by omega
          rw [List.find?_cons_of_neg _ (by simp [hveq])]
          rw [List.find?_cons_of_neg _ (by simp [hane])]
          have := hfind
          rw [List.find?_cons_of_neg _ (by simp; omega)] at this
          exact this

/-- `find?` over a filtered list is `find?` of the conjunction over the
original list. -/
lemma find?_filter_eq {α : Type} (f g : α → Bool) (l : List α) :
    List.find? g (List.filter f l) = List.find? (fun x => f x && g x) l := by
  induction l with
  | nil => rfl
  | cons a t ih =>
    by_cases hf : f a = true
    · rw [List.filter_cons_of_pos hf]
      by_cases hg : g a = true
      · rw [List.find?_cons_of_pos _ hg, List.find?_cons_of_pos _ (by simp [hf, hg])]
      · rw [List.find?_cons_of_neg _ (by simp [hg]), List.find?_cons_of_neg _ (by simp [hg]), ih]
    · rw [List.filter_cons_of_neg hf,
        List.find?_cons_of_neg _ (by simp [hf]), ih]

/-- Claim C1: for every candidate list of length at least 2, if some
candidate has a non-null preference strictly greater than 0 then
`get_best_location` returns the first candidate (in list order) whose
preference equals the minimum positive preference; and if every
candidate's preference is null or non-positive it returns the first
element of the original, unfiltered list. -/
theorem C1_best_location (locs : List LocationData) (h2 : 2 ≤ locs.length) :
    ((∃ l ∈ locs, hasPosPref l = true) →
      ∃ p : Int,
        (∃ l ∈ locs, l.preference = some p ∧ 0 < p)
        ∧ (∀ l ∈ locs, ∀ q : Int, l.preference = some q → 0 < q → p ≤ q)
        ∧ get_best_location locs = List.find? (fun l => l.preference == some p) locs)
    ∧ ((∀ l ∈ locs, hasPosPref l = false) →
        ∃ x xs, locs = x :: xs ∧ get_best_location locs = some x) := by
  match locs, h2 with
  | a :: b :: t, _ =>
    constructor
    · rintro ⟨l0, hl0mem, hl0pos⟩
      have hl0filter : l0 ∈ (a :: b :: t).filter hasPosPref := List.mem_filter.mpr ⟨hl0mem, hl0pos⟩
      obtain ⟨v, vs, hvvs⟩ : ∃ v vs, (a :: b :: t).filter hasPosPref = v :: vs := by
        cases hc : (a :: b :: t).filter hasPosPref with
        | nil => rw [hc] at hl0filter; cases hl0filter
        | cons v vs => exact ⟨v, vs, rfl⟩
      have hres : get_best_location (a :: b :: t) = some (pickMin v vs) := by
        simp only [get_best_location]
        rw [hvvs]
      obtain ⟨hmem, hmin, hfind⟩ := pickMin_spec vs v
      set m := pickMin v vs with hm
      have hmfilter : m ∈ (a :: b :: t).filter hasPosPref := hvvs ▸ hmem
      have hmlocs : m ∈ (a :: b :: t) := List.mem_of_mem_filter hmfilter
      have hmpos : hasPosPref m = true := List.of_mem_filter hmfilter
      obtain ⟨pm, hpm, hpmpos⟩ : ∃ pm, m.preference = some pm ∧ 0 < pm := by
        unfold hasPosPref at hmpos
        cases hp : m.preference with
        | none => rw [hp] at hmpos; cases hmpos
        | some q =>
          rw [hp] at hmpos
          exact ⟨q, rfl, of_decide_eq_true hmpos⟩
      have hkey : getPreference m = pm := by
        unfold getPreference; rw [hpm]; rfl
      refine ⟨pm, ⟨m, hmlocs, hpm, hpmpos⟩, ?_, ?_⟩
      · intro l hl q hq hqpos
        have hlpos : hasPosPref l = true := by
          unfold hasPosPref; rw [hq]; exact decide_eq_true hqpos
        have hlfilter : l ∈ (a :: b :: t).filter hasPosPref := List.mem_filter.mpr ⟨hl, hlpos⟩
        have := hmin l (hvvs ▸ hlfilter)
        rw [hkey] at this
        unfold getPreference at this
        rw [hq] at this
        exact this
      · have hchain :
            List.find? (fun l => getPreference l == getPreference m) ((a :: b :: t).filter hasPosPref)
              = some m := by rw [hvvs]; exact hfind
        rw [find?_filter_eq] at hchain
        have hpred : (fun l => hasPosPref l && (getPreference l == getPreference m))
            = (fun l => l.preference == some pm) := by
          funext l
          show (hasPosPref l && (getPreference l == getPreference m)) = (l.preference == some pm)
          cases hp : l.preference with
          | none =>
            have h1 : hasPosPref l = false := by unfold hasPosPref; rw [hp]
            simp [h1, hp]
          | some q =>
            have h1 : hasPosPref l = decide (0 < q) := by unfold hasPosPref; rw [hp]
            have h2 : getPreference l = q := by unfold getPreference; rw [hp]; rfl
            rw [h1, h2, hkey]
            by_cases hqp : q = pm
            · subst hqp
              simp [hpmpos]
            · simp [hqp]
        rw [hpred] at hchain
        rw [hres, hchain]
    · intro hall
      refine ⟨a, b :: t, rfl, ?_⟩
      have hfe : (a :: b :: t).filter hasPosPref = [] := by
        apply List.filter_eq_nil_iff.mpr
        intro x hx
        simp [hall x hx]
      simp only [get_best_location]
      rw [hfe]

/-- Witness for claim C1 at a concrete two-element candidate list. -/
theorem C1_best_location_witness :
    2 ≤ ([⟨some 1, some ("A"), some ("AA"), some 5⟩,
          ⟨some 2, some ("B"), some ("BB"), some 3⟩] : List LocationData).length
    ∧ (∃ l ∈ ([⟨some 1, some ("A"), some ("AA"), some 5⟩,
          ⟨some 2, some ("B"), some ("BB"), some 3⟩] : List LocationData), hasPosPref l = true)
    ∧ ∃ p : Int,
        (∃ l ∈ ([⟨some 1, some ("A"), some ("AA"), some 5⟩,
          ⟨some 2, some ("B"), some ("BB"), some 3⟩] : List LocationData),
            l.preference = some p ∧ 0 < p)
        ∧ (∀ l ∈ ([⟨some 1, some ("A"), some ("AA"), some 5⟩,
          ⟨some 2, some ("B"), some ("BB"), some 3⟩] : List LocationData),
            ∀ q : Int, l.preference = some q → 0 < q → p ≤ q)
        ∧ get_best_location ([⟨some 1, some ("A"), some ("AA"), some 5⟩,
          ⟨some 2, some ("B"), some ("BB"), some 3⟩] : List LocationData)
            = List.find? (fun l => l.preference == some p)
                ([⟨some 1, some ("A"), some ("AA"), some 5⟩,
                  ⟨some 2, some ("B"), some ("BB"), some 3⟩] : List LocationData) :=
  ⟨by decide, by decide, (C1_best_location _ (by decide)).1 (by decide)⟩

/-- Claim C2: a candidate list of length exactly 1 yields its sole element,
whatever its preference field holds (present, null, zero or negative). -/
theorem C2_single_candidate (only : LocationData) :
    get_best_location [only] = some only := rfl

/-- String append is associative (via the underlying character list). -/
lemma strAppend_assoc (a b c : String) : a ++ b ++ c = a ++ (b ++ c) := by
  apply String.ext
  simp [String.data_append, List.append_assoc]

/-- A current-conditions record: `{temp, flike, rhum, rainp, winds,
maxwind, symb}`, every field optional (absent or JSON-null is `none`).
Temperatures, humidity and rain probability are integral in the provider
payload; wind speeds are modelled as rationals (Python floats). -/
structure CurrentData where
  temp : Option Int
  flike : Option Int
  rhum : Option Int
  rainp : Option Int
  winds : Option Rat
  maxwind : Option Rat
  symb : Option String
deriving DecidableEq, Repr

/-- Embeds the constant `METERS_PER_SEC_TO_KMH_RATE = 3.6`. -/
def METERS_PER_SEC_TO_KMH_RATE : Rat := 36 / 10

/-- Round-half-to-even on rationals, the rounding used by CPython when
formatting a float with one decimal place; computed on the numerator and
denominator (`f` is the floor, `rem2 / d` is twice the fractional part). -/
def roundHalfEven (q : Rat) : Int :=
  let n : Int := q.num
  let d : Int := (q.den : Int)
  let f : Int := Int.fdiv n d
  let rem2 : Int := 2 * (n - f * d)
  if rem2 < d then f
  else if d < rem2 then f + 1
  else if f % 2 = 0 then f else f + 1

/-- Models the Python format specifier of one decimal place applied to the
(rational-valued model of the) wind speeds appearing here. -/
def fmtFixed1 (q : Rat) : String :=
  let n : Int := roundHalfEven (q * 10)
  if n < 0 then
    "-" ++ toString ((-n).toNat / 10) ++ "." ++ toString ((-n).toNat % 10)
  else
    toString (n.toNat / 10) ++ "." ++ toString (n.toNat % 10)

/-- Embeds the wind block of `format_weather_response` (lines 200-209):
speed converted to km/h with one decimal, gust clause appended only when a
gust value is present and strictly greater than the base speed, placeholder
when the speed is null. -/
def windSection (winds maxwind : Option Rat) : String :=
  match winds with
  | none => "Wind speed unavailable"
  | some wind_speed =>
    let wind_str := fmtFixed1 (wind_speed * METERS_PER_SEC_TO_KMH_RATE) ++ " km/h"
    match maxwind with
    | some wind_gusts =>
      if wind_speed < wind_gusts then
        wind_str ++ " (gusting to " ++ fmtFixed1 (wind_gusts * METERS_PER_SEC_TO_KMH_RATE) ++ " km/h)"
      else wind_str
    | none => wind_str

/-- Embeds `EMOJI_MAPPINGS` from emoji_mappings.py, glyph strings copied
byte-for-byte from the source file (whose glyph encoding is corrupted). -/
def EMOJI_MAPPINGS : List (String × String) :=
  [("clear-day", "\u201a\u00f2\u00c4\u00d4\u220f\u00e8"),
   ("clear-night", "\uf8ff\u00fc\u00e5\u00f5"),
   ("rain", "\u201a\u00f2\u00ee"),
   ("snow", "\u201a\u00f9\u00d1\u00d4\u220f\u00e8"),
   ("sleet", "\u201a\u00f9\u00d1\u00d4\u220f\u00e8"),
   ("wind", "\uf8ff\u00fc\u00e5\u00a8\u00d4\u220f\u00e8"),
   ("fog", "\uf8ff\u00fc\u00e5\u00b4\u00d4\u220f\u00e8"),
   ("cloudy", "\u201a\u00f2\u00c5\u00d4\u220f\u00e8"),
   ("partly-cloudy-day", "\u201a\u00f5\u00d6"),
   ("partly-cloudy-night", "\uf8ff\u00fc\u00e5\u00f5"),
   ("hail", "\u201a\u00f2\u00ee"),
   ("thunderstorm", "\u201a\u00f5\u00e0\u00d4\u220f\u00e8"),
   ("tornado", "\uf8ff\u00fc\u00e5\u2122\u00d4\u220f\u00e8")]

/-- Embeds the Python subscript `EMOJI_MAPPINGS[key]` for the keys used by
`FORECA_EMOJI_MAPPINGS` (all present in the table). -/
def emojiVal (k : String) : String :=
  (List.lookup k EMOJI_MAPPINGS).getD ("")

/-- Embeds `FORECA_EMOJI_MAPPINGS` from emoji_mappings.py: the fixed
condition-code table mapping provider codes to glyphs. -/
def FORECA_EMOJI_MAPPINGS : List (String × String) :=
  [("d000", emojiVal ("clear-day")),
   ("d100", emojiVal ("partly-cloudy-day")),
   ("d200", emojiVal ("partly-cloudy-day")),
   ("d210", emojiVal ("rain")),
   ("d220", emojiVal ("rain")),
   ("d300", emojiVal ("partly-cloudy-day")),
   ("d310", emojiVal ("cloudy")),
   ("d320", emojiVal ("rain")),
   ("d340", emojiVal ("thunderstorm")),
   ("d400", emojiVal ("cloudy")),
   ("d420", emojiVal ("rain")),
   ("d430", emojiVal ("thunderstorm")),
   ("n000", emojiVal ("clear-night")),
   ("n100", emojiVal ("cloudy")),
   ("n200", emojiVal ("cloudy")),
   ("n210", emojiVal ("rain")),
   ("n220", emojiVal ("rain")),
   ("n300", emojiVal ("cloudy")),
   ("n320", emojiVal ("rain")),
   ("n400", emojiVal ("cloudy")),
   ("n420", emojiVal ("rain")),
   ("n430", emojiVal ("thunderstorm"))]

/-- Embeds the condition-glyph lookup shared by both formatters:
`FORECA_EMOJI_MAPPINGS.get(x.get("symb", ""), "❓")` — a missing `symb`
defaults to the empty string, and an unmapped code yields the unknown
glyph. -/
def emojiFor (symb : Option String) : String :=
  (List.lookup (symb.getD ("")) FORECA_EMOJI_MAPPINGS).getD ("❓")

/-- Embeds the temperature block (lines 188-192); note the source appends
the feels-like clause whenever `flike` is present and different from
`temp`, including when `temp` itself is null. -/
def tempSection (cur : CurrentData) : String :=
  let base := match cur.temp with
    | some t => toString t ++ "°C"
    | none => "Temperature unavailable"
  match cur.flike with
  | some f =>
    if (match cur.temp with | some t => decide (f ≠ t) | none => true) = true
    then base ++ " (feels like " ++ toString f ++ "°C)" else base
  | none => base

/-- Embeds the humidity block (lines 194-195). -/
def humiditySection (cur : CurrentData) : String :=
  match cur.rhum with
  | some h => toString h ++ "%"
  | none => "Humidity unavailable"

/-- Embeds the rain-probability block (lines 197-198). -/
def rainSection (cur : CurrentData) : String :=
  match cur.rainp with
  | some r => toString r ++ "% chance of rain"
  | none => "Rain probability unavailable"

/-- Embeds `WeatherBot.build_foreca_web_url` (lines 114-124): URL built
only when the id and the (space-to-hyphen rewritten) name are both truthy. -/
def build_foreca_web_url (location_data : LocationData) : Option String :=
  match location_data.id with
  | none => none
  | some loc_id =>
    let location_name := ((location_data.name).getD ("")).replace (" ") ("-")
    if loc_id ≠ 0 ∧ location_name ≠ "" then
      some ("https://www.foreca.com" ++ "/" ++ toString loc_id ++ "/" ++ location_name)
    else none

/-- Embeds the fixed multi-line response template of
`format_weather_response` (lines 214-221). -/
def weatherBody (location : LocationData) (cur : CurrentData) : String :=
  "Weather for " ++ (location.name).getD ("Unknown Location") ++ ", "
    ++ (location.countryName).getD ("Unknown Country") ++ ":\n"
    ++ "Temperature: " ++ tempSection cur ++ "\n"
    ++ "Conditions: " ++ emojiFor cur.symb ++ "\n"
    ++ "Humidity: " ++ humiditySection cur ++ "\n"
    ++ "Wind: " ++ windSection cur.winds cur.maxwind ++ "\n"
    ++ "Precipitation: " ++ rainSection cur

/-- Embeds `WeatherBot.format_weather_response` (lines 179-230): `none`
models a falsy (absent or empty) current-conditions dict; the summary
block is appended only for a non-empty summary string, then the web URL
block when a URL can be built. -/
def format_weather_response (location : LocationData) (current : Option CurrentData)
    (summary : Option String) : String :=
  match current with
  | none => "No weather data available"
  | some cur =>
    let response := weatherBody location cur
    let response2 := match summary with
      | some s => if s = "" then response else response ++ "\n\nSummary: " ++ s
      | none => response
    match build_foreca_web_url location with
    | some url => response2 ++ "\n\nMore details: " ++ url
    | none => response2

/-- Appending on the right preserves a middle-factor decomposition. -/
lemma factor_append (w x a : String) (h : ∃ p q, a = p ++ w ++ q) :
    ∃ p q, a ++ x = p ++ w ++ q := by
  obtain ⟨p, q, rfl⟩ := h
  exact ⟨p, q ++ x, by rw [strAppend_assoc (p ++ w) q x]⟩

/-- The assembled weather body contains the wind section as a factor. -/
lemma weatherBody_factor (loc : LocationData) (cur : CurrentData) :
    ∃ p q, weatherBody loc cur = p ++ windSection cur.winds cur.maxwind ++ q := by
  refine ⟨"Weather for " ++ (loc.name).getD ("Unknown Location") ++ ", "
    ++ (loc.countryName).getD ("Unknown Country") ++ ":\n"
    ++ "Temperature: " ++ tempSection cur ++ "\n"
    ++ "Conditions: " ++ emojiFor cur.symb ++ "\n"
    ++ "Humidity: " ++ humiditySection cur ++ "\n"
    ++ "Wind: ", "\n" ++ "Precipitation: " ++ rainSection cur, ?_⟩
  simp only [weatherBody, strAppend_assoc]

/-- Claim C3: in the current-weather formatter the wind section converts a
non-null speed to km/h (times 3.6, one decimal place), appends the gust
clause exactly when a gust value is present and strictly greater than the
base speed, and is the placeholder string for a null speed regardless of
the gust value; the two concrete examples of the specification are
reproduced, and the wind section occurs inside the full formatted
response. -/
theorem C3_wind_formatting :
    (∀ (w g : Rat), windSection (some w) (some g)
        = fmtFixed1 (w * METERS_PER_SEC_TO_KMH_RATE) ++ " km/h"
          ++ (if w < g then " (gusting to " ++ fmtFixed1 (g * METERS_PER_SEC_TO_KMH_RATE) ++ " km/h)" else ""))
    ∧ (∀ w : Rat, windSection (some w) none = fmtFixed1 (w * METERS_PER_SEC_TO_KMH_RATE) ++ " km/h")
    ∧ (∀ g : Option Rat, windSection none g = "Wind speed unavailable")
    ∧ windSection (some 2) (some 5) = "7.2 km/h (gusting to 18.0 km/h)"
    ∧ windSection (some 2) (some 2) = "7.2 km/h"
    ∧ (∀ (loc : LocationData) (cur : CurrentData) (summary : Option String),
        ∃ p q, format_weather_response loc (some cur) summary
          = p ++ windSection cur.winds cur.maxwind ++ q) := by
  refine ⟨?_, ?_, ?_, by decide, by decide, ?_⟩
  · intro w g
    by_cases h : w < g
    · simp only [windSection, if_pos h, if_pos h, strAppend_assoc]
    · simp only [windSection, if_neg h, if_neg h]
      rw [String.append_empty]
  · intro w
    rfl
  · intro g
    rfl
  · intro loc cur summary
    have hbase := weatherBody_factor loc cur
    simp only [format_weather_response]
    cases build_foreca_web_url loc with
    | some url =>
      cases summary with
      | some s =>
        dsimp only
        by_cases hs : s = ""
        · rw [if_pos hs]
          exact factor_append _ _ _ (factor_append _ _ _ hbase)
        · rw [if_neg hs]
          exact factor_append _ _ _ (factor_append _ _ _
            (factor_append _ _ _ (factor_append _ _ _ hbase)))
      | none =>
        exact factor_append _ _ _ (factor_append _ _ _ hbase)
    | none =>
      cases summary with
      | some s =>
        dsimp only
        by_cases hs : s = ""
        · rw [if_pos hs]
          exact hbase
        · rw [if_neg hs]
          exact factor_append _ _ _ (factor_append _ _ _ hbase)
      | none =>
        exact hbase

/-- In an association list with no duplicate keys, lookup of a present key
returns its paired value. -/
lemma lookup_of_mem_keys_nodup :
    ∀ (l : List (String × String)), (l.map Prod.fst).Nodup →
      ∀ s e, (s, e) ∈ l → List.lookup s l = some e := by
  intro l
  induction l with
  | nil => intro _ s e h; cases h
  | cons a t ih =>
    intro hnd s e hmem
    rw [List.map_cons] at hnd
    have hnd' : (t.map Prod.fst).Nodup := (List.nodup_cons.mp hnd).2
    have hhead : a.1 ∉ t.map Prod.fst := (List.nodup_cons.mp hnd).1
    rcases List.mem_cons.mp hmem with h | h
    · rw [← h]
      simp [List.lookup]
    · obtain ⟨k, v⟩ := a
      have hne : ¬ s = k := by
        intro he
        exact hhead (he ▸ List.mem_map.mpr ⟨(s, e), h, rfl⟩)
      have hbeq : (s == k) = false := beq_eq_false_iff_ne.mpr hne
      simp only [List.lookup, hbeq]
      exact ih hnd' s e h

/-- Lookup of an absent key in an association list returns `none`. -/
lemma lookup_eq_none_of_not_mem :
    ∀ (l : List (String × String)) (s : String), s ∉ l.map Prod.fst → List.lookup s l = none := by
  intro l
  induction l with
  | nil => intro s _; rfl
  | cons a t ih =>
    intro s hs
    obtain ⟨k, v⟩ := a
    rw [List.map_cons, List.mem_cons] at hs
    push_neg at hs
    have hbeq : (s == k) = false := beq_eq_false_iff_ne.mpr hs.1
    simp only [List.lookup, hbeq]
    exact ih s hs.2

/-- Claim C4: the condition-glyph lookup shared by both formatters maps
every code present in the fixed table to its glyph, yields the generic
unknown glyph for every unmapped code and for a missing code, and (being a
total function) never raises. -/
theorem C4_condition_glyph :
    (∀ s e, (s, e) ∈ FORECA_EMOJI_MAPPINGS → emojiFor (some s) = e)
    ∧ (∀ s, s ∉ FORECA_EMOJI_MAPPINGS.map Prod.fst → emojiFor (some s) = "❓")
    ∧ emojiFor none = "❓" := by
  refine ⟨?_, ?_, rfl⟩
  · intro s e hmem
    have hnd : (FORECA_EMOJI_MAPPINGS.map Prod.fst).Nodup := by decide
    have hl := lookup_of_mem_keys_nodup FORECA_EMOJI_MAPPINGS hnd s e hmem
    simp [emojiFor, hl]
  · intro s hs
    have hl := lookup_eq_none_of_not_mem FORECA_EMOJI_MAPPINGS s hs
    simp [emojiFor, hl]

/-- Witness for claim C4: a mapped code renders its table glyph and an
unmapped code renders the unknown glyph. -/
theorem C4_condition_glyph_witness :
    (("d100", emojiVal ("partly-cloudy-day")) ∈ FORECA_EMOJI_MAPPINGS)
    ∧ ("zzzz" ∉ FORECA_EMOJI_MAPPINGS.map Prod.fst)
    ∧ emojiFor (some ("d100")) = emojiVal ("partly-cloudy-day")
    ∧ emojiFor (some ("zzzz")) = "❓" :=
  ⟨by decide, by decide,
   C4_condition_glyph.1 _ _ (by decide),
   C4_condition_glyph.2.1 _ (by decide)⟩

/-- Python exceptions that the forecast formatter can raise. -/
inductive PyErr where
  | valueError
  | typeError
deriving DecidableEq, Repr

/-- A forecast-day record: `{date, tmin, tmax, symb, rainp}`. For `rainp`
the three Python cases of `day.get('rainp', 0)` are distinguished: key
absent (`none`, defaults to 0), present but null (`some none`), present
with a value (`some (some v)`). -/
structure ForecastDay where
  date : Option String
  tmin : Option Int
  tmax : Option Int
  symb : Option String
  rainp : Option (Option Int)
deriving DecidableEq, Repr

/-- Gregorian leap-year test, as used by Python's datetime. -/
def isLeapYear (y : Nat) : Bool :=
  y % 4 == 0 && (y % 100 != 0 || y % 400 == 0)

/-- Number of days in a month, as validated by Python's datetime
constructor. -/
def daysInMonth (y m : Nat) : Nat :=
  if m = 2 then (if isLeapYear y then 29 else 28)
  else if m = 4 ∨ m = 6 ∨ m = 9 ∨ m = 11 then 30
  else 31

/-- Splits a character list at every dash, mirroring a split on the
literal separator of the date format. -/
def splitDashes : List Char → List (List Char)
  | [] => [[]]
  | c :: rest =>
    let r := splitDashes rest
    if c = '-' then [] :: r
    else
      match r with
      | f :: others => (c :: f) :: others
      | [] => [[c]]

/-- Accumulates the numeric value of a digit string. -/
def digitsVal : List Char → Nat → Nat
  | [], acc => acc
  | c :: rest, acc => digitsVal rest (acc * 10 + (c.toNat - 48))

/-- Parses a non-empty all-digit character list as a natural number. -/
def parseNatField (cs : List Char) : Option Nat :=
  if cs ≠ [] ∧ cs.all Char.isDigit then some (digitsVal cs 0) else none

/-- Models CPython's datetime.strptime with the fixed format string
"%Y-%m-%d": the year is exactly four digits, month and day are one or two
digits each (leading zero optional, so non-zero-padded dates are
accepted), the value ranges are checked, and the datetime constructor
additionally requires year at least 1 and the day to exist in the given
month.  A failure (ValueError in Python) is `none`. -/
def strptimeYmd (s : String) : Option (Nat × Nat × Nat) :=
  match splitDashes s.toList with
  | [ys, ms, ds] =>
    match parseNatField ys, parseNatField ms, parseNatField ds with
    | some y, some m, some d =>
      if ys.length = 4 ∧ 1 ≤ y
          ∧ (ms.length = 1 ∨ ms.length = 2) ∧ 1 ≤ m ∧ m ≤ 12
          ∧ (ds.length = 1 ∨ ds.length = 2) ∧ 1 ≤ d ∧ d ≤ daysInMonth y m
      then some (y, m, d) else none
    | _, _, _ => none
  | _ => none

/-- The full weekday names produced by strftime with the %A directive. -/
def dayNames : List String :=
  ["Sunday", "Monday", "Tuesday", "Wednesday", "Thursday", "Friday", "Saturday"]

/-- Weekday of a Gregorian date (Sakamoto's method, 0 = Sunday), rendered
as the full English weekday name, modelling strftime's %A directive. -/
def weekdayName (y m d : Nat) : String :=
  let t := [0, 3, 2, 5, 0, 3, 5, 1, 4, 6, 2, 4]
  let y2 := if m < 3 then y - 1 else y
  let w := (y2 + y2 / 4 - y2 / 100 + y2 / 400 + t.getD (m - 1) 0 + d) % 7
  dayNames.getD w ""

/-- Embeds one iteration of the day loop of `format_forecast_response`
(lines 240-258): the date defaults to the unparseable string
"Unknown date" when absent and is parsed first (ValueError on failure);
the " (today)" suffix and the "(currently {tmax}C)" annotation are chosen
by the positional index; a present-but-null rain probability raises
TypeError at the comparison with 0, while an absent one defaults to 0. -/
def formatDay (i : Nat) (day : ForecastDay) : Except PyErr String :=
  match strptimeYmd ((day.date).getD ("Unknown date")) with
  | none => Except.error PyErr.valueError
  | some ymd =>
    let day_name := weekdayName ymd.1 ymd.2.1 ymd.2.2 ++ (if i = 0 then " (today)" else "")
    let tminS := match day.tmin with | some v => toString v | none => "N/A"
    let tmaxS := match day.tmax with | some v => toString v | none => "N/A"
    let conditions := emojiFor day.symb
    let mkLine := fun (rv : Int) =>
      let rain_str := if 0 < rv then toString rv ++ "% chance of rain" else ""
      "\n" ++ day_name ++ " - " ++ conditions ++ "  " ++ tminS ++ "°C - " ++ tmaxS ++ "°C"
        ++ (if i = 0 then " (currently " ++ tmaxS ++ "°C)" else "") ++ "   " ++ rain_str
    match day.rainp with
    | some none => Except.error PyErr.typeError
    | some (some v) => Except.ok (mkLine v)
    | none => Except.ok (mkLine 0)

/-- The indexed day loop of `format_forecast_response`: lines are
accumulated in input order and the first raised exception aborts the
whole formatting. -/
def formatDays : Nat → List ForecastDay → Except PyErr String
  | _, [] => Except.ok ""
  | i, day :: rest =>
    match formatDay i day with
    | Except.error e => Except.error e
    | Except.ok line =>
      match formatDays (i + 1) rest with
      | Except.error e => Except.error e
      | Except.ok restS => Except.ok (line ++ restS)

/-- Embeds the forecast header line (lines 237-238). -/
def forecastHeader (location : LocationData) : String :=
  "3-day Forecast for " ++ (location.name).getD ("Unknown") ++ ", "
    ++ (location.countryName).getD ("Unknown") ++ ":\n"

/-- Embeds `WeatherBot.format_forecast_response` (lines 232-260): an empty
day list yields the fixed no-data string, otherwise the header plus one
line per day; any exception raised in the loop propagates. -/
def format_forecast_response (location : LocationData) (forecast_data : List ForecastDay) :
    Except PyErr String :=
  match forecast_data with
  | [] => Except.ok ("No weather forecast data available")
  | d :: rest =>
    match formatDays 0 (d :: rest) with
    | Except.error e => Except.error e
    | Except.ok body => Except.ok (forecastHeader location ++ body)

/-- The weekday-name part of a day line (specification-side reading). -/
def dayNameOf (day : ForecastDay) : String :=
  match strptimeYmd ((day.date).getD ("Unknown date")) with
  | some ymd => weekdayName ymd.1 ymd.2.1 ymd.2.2
  | none => ""

/-- The rendered minimum temperature of a day line. -/
def tminStrOf (day : ForecastDay) : String :=
  match day.tmin with | some v => toString v | none => "N/A"

/-- The rendered maximum temperature of a day line. -/
def tmaxStrOf (day : ForecastDay) : String :=
  match day.tmax with | some v => toString v | none => "N/A"

/-- The rain-probability value used by a day line: an absent field
defaults to 0 (only well-defined for days whose field is not
present-but-null). -/
def rainpValOf (day : ForecastDay) : Int :=
  ((day.rainp).getD (some 0)).getD 0

/-- Specification-side closed form of one forecast day line, following the
specification's wording: weekday name with " (today)" only at index 0, the
glyph, the temperature range, the "(currently {tmax}C)" annotation (which
reuses tmax) only at index 0, and the rain note exactly when the rain
probability is strictly positive. -/
def dayLineSpec (i : Nat) (day : ForecastDay) : String :=
  "\n" ++ dayNameOf day ++ (if i = 0 then " (today)" else "")
    ++ " - " ++ emojiFor day.symb ++ "  " ++ tminStrOf day ++ "°C - " ++ tmaxStrOf day ++ "°C"
    ++ (if i = 0 then " (currently " ++ tmaxStrOf day ++ "°C)" else "")
    ++ "   " ++ (if 0 < rainpValOf day then toString (rainpValOf day) ++ "% chance of rain" else "")

/-- The day lines of a forecast, one per day in input order. -/
def dayLinesSpec : Nat → List ForecastDay → List String
  | _, [] => []
  | i, d :: rest => dayLineSpec i d :: dayLinesSpec (i + 1) rest

/-- Concatenation of a list of line strings. -/
def joinStrings : List String → String
  | [] => ""
  | s :: rest => s ++ joinStrings rest

/-- A forecast day on which the day loop cannot raise: its date parses and
its rain probability is not present-but-null. -/
def validDay (day : ForecastDay) : Bool :=
  (strptimeYmd ((day.date).getD ("Unknown date"))).isSome && day.rainp != some none

/-- On a valid day the loop body produces exactly the closed-form line. -/
lemma formatDay_valid (i : Nat) (day : ForecastDay) (h : validDay day = true) :
    formatDay i day = Except.ok (dayLineSpec i day) := by
  rw [validDay, Bool.and_eq_true] at h
  obtain ⟨hdate, hrp⟩ := h
  obtain ⟨ymd, hp⟩ := Option.isSome_iff_exists.mp hdate
  cases hr : day.rainp with
  | none =>
    simp [formatDay, hp, dayLineSpec, dayNameOf, tminStrOf, tmaxStrOf, rainpValOf, hr,
      strAppend_assoc]
  | some o =>
    cases o with
    | none => rw [hr] at hrp; simp at hrp
    | some v =>
      simp [formatDay, hp, dayLineSpec, dayNameOf, tminStrOf, tmaxStrOf, rainpValOf, hr,
        strAppend_assoc]

/-- There is one line per day. -/
lemma dayLinesSpec_length : ∀ (days : List ForecastDay) (i : Nat),
    (dayLinesSpec i days).length = days.length := by
  intro days
  induction days with
  | nil => intro i; rfl
  | cons d rest ih => intro i; simp [dayLinesSpec, ih (i + 1)]

/-- Over valid days the indexed loop returns the joined closed-form lines. -/
lemma formatDays_valid : ∀ (days : List ForecastDay) (i : Nat),
    (∀ d ∈ days, validDay d = true) →
    formatDays i days = Except.ok (joinStrings (dayLinesSpec i days)) := by
  intro days
  induction days with
  | nil => intro i _; rfl
  | cons d rest ih =>
    intro i h
    have hd := formatDay_valid i d (h d (List.mem_cons_self d rest))
    have hr := ih (i + 1) (fun x hx => h x (List.mem_cons_of_mem d hx))
    simp [formatDays, hd, hr, dayLinesSpec, joinStrings]

/-- Claim C5: on every non-empty day list of valid days the forecast
formatter emits the header plus one closed-form line per day in input
order; the " (today)" suffix and the "(currently {tmax}C)" annotation are
selected purely by the positional index 0 (see `dayLineSpec`), and the
rain note appears exactly when the day's rain probability is strictly
positive, an absent value defaulting to 0. -/
theorem C5_forecast_lines (loc : LocationData) (days : List ForecastDay)
    (hne : days ≠ []) (hv : ∀ day ∈ days, validDay day = true) :
    format_forecast_response loc days
      = Except.ok (forecastHeader loc ++ joinStrings (dayLinesSpec 0 days))
    ∧ (dayLinesSpec 0 days).length = days.length
    ∧ (∀ i day, validDay day = true → formatDay i day = Except.ok (dayLineSpec i day)) := by
  refine ⟨?_, dayLinesSpec_length days 0, fun i day h => formatDay_valid i day h⟩
  cases days with
  | nil => exact absurd rfl hne
  | cons d rest =>
    have hfd := formatDays_valid (d :: rest) 0 hv
    simp [format_forecast_response, hfd]

/-- Concrete location for the claim C5 witness. -/
def locW5 : LocationData := ⟨some 100658225, some ("Canberra"), some ("Australia"), some 1⟩

/-- First witness day (the specification's forecast example). -/
def dayW1 : ForecastDay := ⟨some ("2024-03-04"), some 2, some 9, some ("d100"), some (some 0)⟩

/-- Second witness day, with a positive rain probability. -/
def dayW2 : ForecastDay := ⟨some ("2024-03-05"), some 3, some 11, some ("d200"), some (some 40)⟩

/-- Witness for claim C5 on a concrete two-day forecast. -/
theorem C5_forecast_lines_witness :
    (([dayW1, dayW2] : List ForecastDay) ≠ [])
    ∧ (∀ day ∈ ([dayW1, dayW2] : List ForecastDay), validDay day = true)
    ∧ format_forecast_response locW5 [dayW1, dayW2]
        = Except.ok (forecastHeader locW5 ++ joinStrings (dayLinesSpec 0 [dayW1, dayW2])) :=
  ⟨by decide, by decide, (C5_forecast_lines locW5 [dayW1, dayW2] (by decide) (by decide)).1⟩

/-- Whether an exception escaped the forecast formatter. -/
def exceptOk (e : Except PyErr String) : Bool :=
  match e with
  | Except.ok _ => true
  | Except.error _ => false

/-- Formalizes the claim's phrase "well-formed yyyy-mm-dd string": exactly
ten characters, four year digits, zero-padded two-digit month and day
separated by dashes, with valid calendar ranges. -/
def isWellFormedYmd (s : String) : Bool :=
  match s.toList with
  | [y1, y2, y3, y4, h1, m1, m2, h2, d1, d2] =>
    y1.isDigit && y2.isDigit && y3.isDigit && y4.isDigit
      && (h1 == '-') && m1.isDigit && m2.isDigit && (h2 == '-') && d1.isDigit && d2.isDigit
      && (let y := (y1.toNat - 48) * 1000 + (y2.toNat - 48) * 100 + (y3.toNat - 48) * 10 + (y4.toNat - 48)
          let m := (m1.toNat - 48) * 10 + (m2.toNat - 48)
          let d := (d1.toNat - 48) * 10 + (d2.toNat - 48)
          decide (1 ≤ y) && decide (1 ≤ m) && decide (m ≤ 12) && decide (1 ≤ d)
            && decide (d ≤ daysInMonth y m))
  | _ => false

/-- Concrete location for the claim C9 theorems. -/
def locC9 : LocationData := ⟨some 7, some ("Testville"), some ("Testland"), some 1⟩

/-- A first forecast day whose date string is not zero-padded. -/
def dayC9 : ForecastDay := ⟨some ("2024-3-4"), some 2, some 9, some ("d100"), none⟩

/-- Counterexample to claim C9 as stated: the first entry's date
"2024-3-4" is not a well-formed yyyy-mm-dd string (the month and day are
not zero-padded), yet the formatter completes without raising, because the
underlying parse accepts one-digit months and days. -/
theorem C9_counterexample :
    isWellFormedYmd ("2024-3-4") = false
    ∧ (dayC9.date = some ("2024-3-4"))
    ∧ exceptOk (format_forecast_response locC9 [dayC9]) = true :=
  ⟨by decide, rfl, by decide⟩

/-- Claim C9 (amended): for every non-empty day list whose first entry
lacks a date key or whose date string is rejected by the "%Y-%m-%d" parse
(which also accepts non-zero-padded months and days), the forecast
formatter raises an exception (ValueError) instead of degrading to a
placeholder; a missing date key defaults to the string "Unknown date",
which fails the parse. -/
theorem C9_malformed_date_raises (loc : LocationData) (day : ForecastDay)
    (rest : List ForecastDay)
    (h : day.date = none ∨ strptimeYmd ((day.date).getD ("Unknown date")) = none) :
    format_forecast_response loc (day :: rest) = Except.error PyErr.valueError
    ∧ strptimeYmd ("Unknown date") = none := by
  have hparse : strptimeYmd ((day.date).getD ("Unknown date")) = none := by
    rcases h with h | h
    · rw [h]
      decide
    · exact h
  have hfd : formatDay 0 day = Except.error PyErr.valueError := by
    simp [formatDay, hparse]
  refine ⟨?_, by decide⟩
  simp [format_forecast_response, formatDays, hfd]

/-- A forecast day with no date key at all. -/
def dayC9m : ForecastDay := ⟨none, some 1, some 2, none, none⟩

/-- Witness for the amended claim C9: a first day without a date key makes
the formatter raise ValueError. -/
theorem C9_malformed_date_raises_witness :
    (dayC9m.date = none ∨ strptimeYmd ((dayC9m.date).getD ("Unknown date")) = none)
    ∧ format_forecast_response locC9 [dayC9m] = Except.error PyErr.valueError :=
  ⟨Or.inl rfl, (C9_malformed_date_raises locC9 dayC9m [] (Or.inl rfl)).1⟩

/-- A day whose date parses but whose rain probability is present and
null raises TypeError in the loop body. -/
lemma formatDay_rainpNull (i : Nat) (day : ForecastDay)
    (hdate : (strptimeYmd ((day.date).getD ("Unknown date"))).isSome = true)
    (hnull : day.rainp = some none) :
    formatDay i day = Except.error PyErr.typeError := by
  obtain ⟨ymd, hp⟩ := Option.isSome_iff_exists.mp hdate
  simp [formatDay, hp, hnull]

/-- An error arising after a prefix of valid days propagates out of the
indexed loop. -/
lemma formatDays_append_error (e : PyErr) :
    ∀ (pre : List ForecastDay) (i : Nat) (rest : List ForecastDay),
      (∀ d ∈ pre, validDay d = true) →
      formatDays (i + pre.length) rest = Except.error e →
      formatDays i (pre ++ rest) = Except.error e := by
  intro pre
  induction pre with
  | nil =>
    intro i rest _ h
    simpa using h
  | cons d pre' ih =>
    intro i rest hv h
    have hd := formatDay_valid i d (hv d (List.mem_cons_self d pre'))
    have hlen : i + (d :: pre').length = (i + 1) + pre'.length := by
      simp only [List.length_cons]
      omega
    rw [hlen] at h
    have hrec := ih (i + 1) rest (fun x hx => hv x (List.mem_cons_of_mem d hx)) h
    simp [formatDays, hd, hrec]

/-- Claim C10: a day list containing a day whose rainp field is present
but null makes the forecast formatter raise TypeError at the
rain-probability comparison (provided formatting reaches that day: the
preceding days are valid and the day's own date parses), while a day with
an entirely absent rainp field formats successfully, the value defaulting
to 0. -/
theorem C10_rainp_null_raises (loc : LocationData) (pre : List ForecastDay)
    (day : ForecastDay) (post : List ForecastDay)
    (hpre : ∀ d ∈ pre, validDay d = true)
    (hnull : day.rainp = some none)
    (hdate : (strptimeYmd ((day.date).getD ("Unknown date"))).isSome = true) :
    format_forecast_response loc (pre ++ day :: post) = Except.error PyErr.typeError
    ∧ (∀ (i : Nat) (d : ForecastDay), d.rainp = none →
        (strptimeYmd ((d.date).getD ("Unknown date"))).isSome = true →
        ∃ s, formatDay i d = Except.ok s) := by
  constructor
  · have hday : formatDay pre.length day = Except.error PyErr.typeError :=
      formatDay_rainpNull pre.length day hdate hnull
    have hrest : formatDays (0 + pre.length) (day :: post) = Except.error PyErr.typeError := by
      rw [Nat.zero_add]
      simp [formatDays, hday]
    have hall : formatDays 0 (pre ++ day :: post) = Except.error PyErr.typeError :=
      formatDays_append_error _ pre 0 (day :: post) hpre hrest
    obtain ⟨hd, tl, hlist⟩ : ∃ hd tl, pre ++ day :: post = hd :: tl := by
      cases pre with
      | nil => exact ⟨day, post, rfl⟩
      | cons p pre' => exact ⟨p, pre' ++ day :: post, rfl⟩
    rw [hlist] at hall ⊢
    simp [format_forecast_response, hall]
  · intro i d hrp hdate'
    have hv : validDay d = true := by
      rw [validDay, Bool.and_eq_true]
      refine ⟨hdate', ?_⟩
      rw [hrp]
      rfl
    exact ⟨dayLineSpec i d, formatDay_valid i d hv⟩

/-- Concrete location for the claim C10 witness. -/
def locC10 : LocationData := ⟨some 8, some ("Nulltown"), some ("Testland"), some 2⟩

/-- A day whose rainp field is present but null. -/
def dayC10 : ForecastDay := ⟨some ("2024-03-04"), some 2, some 9, some ("d100"), some none⟩

/-- Witness for claim C10: a single-day list with a present-but-null rainp
raises TypeError. -/
theorem C10_rainp_null_raises_witness :
    (∀ d ∈ ([] : List ForecastDay), validDay d = true)
    ∧ dayC10.rainp = some none
    ∧ (strptimeYmd ((dayC10.date).getD ("Unknown date"))).isSome = true
    ∧ format_forecast_response locC10 ([] ++ dayC10 :: []) = Except.error PyErr.typeError :=
  ⟨by decide, rfl, by decide,
   (C10_rainp_null_raises locC10 [] dayC10 [] (by decide) rfl (by decide)).1⟩

/-- Observable effects of a command handler: outbound API requests against
the weather API client, outbound web-page requests, and chat replies. -/
inductive Action where
  | httpGet (url : String)
  | webGet (url : String)
  | reply (text : String)
deriving DecidableEq, Repr

/-- The remote world as seen by one command: for each requested URL, the
outcome of the corresponding call.  An outer `none` models any raised
transport, HTTP-status or JSON-decoding failure; a payload is a map from
the string form of a location id to the data stored under that key, with
`none` also covering a falsy (empty) value, which the handlers treat like
a missing key. -/
structure TgEnv where
  searchResults : String → Option (List LocationData)
  recentPayload : String → Option (String → Option CurrentData)
  favPayload : String → Option (String → Option (List ForecastDay))
  summaryResult : String → Option String

/-- Embeds the constant `OLD_MESSAGE_SECONDS_AGE = 60`. -/
def OLD_MESSAGE_SECONDS_AGE : Rat := 60

/-- Embeds the constant `DAYS_TO_FORECAST = 3`. -/
def DAYS_TO_FORECAST : Nat := 3

/-- The generic user-visible failure message of both handlers. -/
def genericErrorReply : String := "Sorry, there was an error getting the weather data"

/-- Embeds `WeatherBot.get_location` (lines 81-112): one search request is
issued; any exception in the request, status check or JSON decode is
swallowed and yields `none`, an empty result list yields `none`
(`get_best_location []`), otherwise the best location is selected. -/
def get_location (env : TgEnv) (query : String) : List Action × Option LocationData :=
  ([Action.httpGet ("/locations/search/" ++ query ++ ".json")],
   match env.searchResults query with
   | none => none
   | some locations => get_best_location locations)

/-- Embeds the forecast extraction `weather_data.get(str(id), [])[:3]`
(line 368): the provider's day list is truncated to the first
`DAYS_TO_FORECAST` entries, a missing key defaulting to the empty list. -/
def extract_forecast (payload : Option (List ForecastDay)) : List ForecastDay :=
  (payload.getD []).take DAYS_TO_FORECAST

/-- Embeds the handler `WeatherBot.weather` (lines 275-329) as the list of
its observable actions, given the processing time, the message timestamp
and the command arguments: messages older than the threshold are dropped
before anything else; a missing argument yields only the usage hint; the
body's exceptions (missing or falsy location id, failed weather request,
missing data key) are caught by the catch-all and yield the generic error
reply. -/
def weatherCmd (env : TgEnv) (now msgDate : Rat) (args : List String) : List Action :=
  if OLD_MESSAGE_SECONDS_AGE < now - msgDate then []
  else
    let query := String.intercalate (" ") args
    if query = "" then [Action.reply ("Please provide a location. Example: /w London")]
    else
      let sr := get_location env query
      match sr.2 with
      | none => sr.1 ++ [Action.reply ("Could not find location: " ++ query)]
      | some location =>
        match location.id with
        | none => sr.1 ++ [Action.reply genericErrorReply]
        | some location_id =>
          if location_id = 0 then sr.1 ++ [Action.reply genericErrorReply]
          else
            let weather_url := "/data/recent/" ++ toString location_id ++ ".json"
            let acts := sr.1 ++ [Action.httpGet weather_url]
            match env.recentPayload weather_url with
            | none => acts ++ [Action.reply genericErrorReply]
            | some payload =>
              match payload (toString location_id) with
              | none => acts ++ [Action.reply genericErrorReply]
              | some current =>
                match build_foreca_web_url location with
                | none =>
                  acts ++ [Action.reply (format_weather_response location (some current) none)]
                | some web_url =>
                  (acts ++ [Action.webGet web_url])
                    ++ [Action.reply (format_weather_response location (some current)
                        (env.summaryResult web_url))]

/-- Embeds the handler `WeatherBot.weather_forecast` (lines 331-380) as
the list of its observable actions, with the same freshness gate, usage
hint and catch-all as the current-weather handler; an empty extracted
forecast or a formatting exception becomes the generic error reply. -/
def weatherForecastCmd (env : TgEnv) (now msgDate : Rat) (args : List String) : List Action :=
  if OLD_MESSAGE_SECONDS_AGE < now - msgDate then []
  else
    let query := String.intercalate (" ") args
    if query = "" then [Action.reply ("Please provide a location. Example: /w London")]
    else
      let sr := get_location env query
      match sr.2 with
      | none => sr.1 ++ [Action.reply ("Could not find location: " ++ query)]
      | some location =>
        match location.id with
        | none => sr.1 ++ [Action.reply genericErrorReply]
        | some location_id =>
          if location_id = 0 then sr.1 ++ [Action.reply genericErrorReply]
          else
            let weather_url := "/data/favorites/" ++ toString location_id ++ ".json"
            let acts := sr.1 ++ [Action.httpGet weather_url]
            match env.favPayload weather_url with
            | none => acts ++ [Action.reply genericErrorReply]
            | some payload =>
              let forecast_data := extract_forecast (payload (toString location_id))
              if forecast_data = [] then acts ++ [Action.reply genericErrorReply]
              else
                match format_forecast_response location forecast_data with
                | Except.error _ => acts ++ [Action.reply genericErrorReply]
                | Except.ok resp => acts ++ [Action.reply resp]

/-- Claim C6: a weather or forecast command whose message timestamp is
more than 60 seconds older than the processing time produces no reply and
no outbound request at all; the guard is evaluated before the arguments
are parsed (the conclusion holds for every argument list) and before any
remote call (it holds for every remote environment). -/
theorem C6_freshness_gate (env : TgEnv) (now msgDate : Rat) (args : List String)
    (h : OLD_MESSAGE_SECONDS_AGE < now - msgDate) :
    weatherCmd env now msgDate args = [] ∧ weatherForecastCmd env now msgDate args = [] := by
  refine ⟨?_, ?_⟩
  · simp only [weatherCmd, if_pos h]
  · simp only [weatherForecastCmd, if_pos h]

/-- A remote environment in which every call fails. -/
def envW6 : TgEnv := ⟨fun _ => none, fun _ => none, fun _ => none, fun _ => none⟩

/-- Witness for claim C6: a message 100 seconds old is dropped by both
handlers. -/
theorem C6_freshness_gate_witness :
    OLD_MESSAGE_SECONDS_AGE < (100 : Rat) - 0
    ∧ weatherCmd envW6 100 0 [("London")] = []
    ∧ weatherForecastCmd envW6 100 0 [("London")] = [] :=
  ⟨by decide, (C6_freshness_gate envW6 100 0 [("London")] (by decide)).1,
   (C6_freshness_gate envW6 100 0 [("London")] (by decide)).2⟩

/-- Claim C7: the location resolver returns the NotFound sentinel (`none`)
both when the search returns zero candidates and when the request raised
(transport, HTTP-status or JSON-parsing failure); being a total function
into an option type, no exception crosses its boundary, and the two
situations produce the same value, hence are indistinguishable to the
caller. -/
theorem C7_resolver_not_found (env : TgEnv) (query : String)
    (h : env.searchResults query = none ∨ env.searchResults query = some []) :
    (get_location env query).2 = none := by
  rcases h with h | h <;> simp [get_location, h, get_best_location]

/-- A remote environment whose search request fails. -/
def envW7 : TgEnv := ⟨fun _ => none, fun _ => none, fun _ => none, fun _ => none⟩

/-- A remote environment whose search succeeds with zero candidates. -/
def envW7b : TgEnv := ⟨fun _ => some [], fun _ => none, fun _ => none, fun _ => none⟩

/-- Witness for claim C7: a failed search and an empty search both resolve
to `none`. -/
theorem C7_resolver_not_found_witness :
    (envW7.searchResults ("Atlantis") = none ∨ envW7.searchResults ("Atlantis") = some [])
    ∧ (get_location envW7 ("Atlantis")).2 = none
    ∧ (envW7b.searchResults ("Atlantis") = none ∨ envW7b.searchResults ("Atlantis") = some [])
    ∧ (get_location envW7b ("Atlantis")).2 = none :=
  ⟨Or.inl rfl, C7_resolver_not_found envW7 ("Atlantis") (Or.inl rfl),
   Or.inr rfl, C7_resolver_not_found envW7b ("Atlantis") (Or.inr rfl)⟩

/-- Claim C8: the forecast fetcher keeps exactly the first
`DAYS_TO_FORECAST = 3` entries of the provider's day list, in the
provider's order (the result is a prefix); when the provider returns at
most 3 days the list is returned unchanged — shorter lists are never
padded; a missing key defaults to the empty list. -/
theorem C8_forecast_truncation (l : List ForecastDay) :
    (extract_forecast (some l)).length = min DAYS_TO_FORECAST l.length
    ∧ (∃ rest, l = extract_forecast (some l) ++ rest)
    ∧ (l.length ≤ DAYS_TO_FORECAST → extract_forecast (some l) = l)
    ∧ extract_forecast none = [] := by
  refine ⟨?_, ⟨l.drop DAYS_TO_FORECAST, ?_⟩, ?_, rfl⟩
  · simp [extract_forecast]
  · exact (List.take_append_drop DAYS_TO_FORECAST l).symm
  · intro h
    simp [extract_forecast, List.take_of_length_le h]

/-- A first sample forecast day for the claim C8 witness. -/
def dayC8a : ForecastDay := ⟨some ("2024-03-04"), some 1, some 2, none, none⟩

/-- A second sample forecast day for the claim C8 witness. -/
def dayC8b : ForecastDay := ⟨some ("2024-03-05"), some 1, some 2, none, none⟩

/-- Witness for claim C8: a two-day provider list is returned whole, with
no padding. -/
theorem C8_forecast_truncation_witness :
    (extract_forecast (some [dayC8a, dayC8b])).length = min DAYS_TO_FORECAST 2
    ∧ ([dayC8a, dayC8b] : List ForecastDay).length ≤ DAYS_TO_FORECAST
    ∧ extract_forecast (some [dayC8a, dayC8b]) = [dayC8a, dayC8b] :=
  ⟨(C8_forecast_truncation [dayC8a, dayC8b]).1, by decide,
   (C8_forecast_truncation [dayC8a, dayC8b]).2.2.1 (by decide)⟩

end WeatherBot
